import Mathlib

/-!
Shallow embedding of `src/util/make_json.py` from the
`opencensus-jetty-demo` repository.

The script builds two in-memory documents — a Python dict with a single
key `numbers` holding the list `[0, 1, ..., n-1]` for `n = 500` and
`n = 100000` — serializes each with `json.dump` (default separators),
and writes the results to `small_file.json` and `large_file.json`.

The embedding models:
  * the two loops that append `i` for `i in range(n)`;
  * dict construction by key assignment (insertion-ordered assoc list);
  * the subset of `json.dump` the script exercises (a dict from
    plain-ASCII keys to lists of non-negative integers), with Python's
    default separators of comma-space between items and colon-space
    after keys, and no trailing newline;
  * the run itself as a sequence of open/write/close file operations
    against a filesystem map, with an oracle supplying the possible
    filesystem failures (open may fail with permission/invalid-path,
    write may fail with disk-full); an uncaught failure aborts the run
    and yields a non-zero exit status.
-/

namespace MakeJson

/-- The loop `l = []; for i in range(count): l.append(i)` from the script. -/
def appendRange (count : Nat) : List Nat :=
  (List.range count).foldl (fun l i => l ++ [i]) []

/-- `snumbers`: the loop at lines 20-22 with `range(500)`. -/
def snumbers : List Nat := appendRange 500

/-- `lnumbers`: the loop at lines 28-30 with `range(100000)`. -/
def lnumbers : List Nat := appendRange 100000

/-- Python dict assignment `d[k] = v`: replace the value in place when the
key is present, otherwise append the new binding (insertion order). -/
def dictSet (d : List (String × List Nat)) (k : String) (v : List Nat) :
    List (String × List Nat) :=
  if d.any (fun kv => kv.1 = k) then
    d.map (fun kv => if kv.1 = k then (k, v) else kv)
  else
    d ++ [(k, v)]

/-- Python dict lookup `d[k]` (as an option). -/
def dictGet (d : List (String × List Nat)) (k : String) :
    Option (List Nat) :=
  (d.find? (fun kv => kv.1 = k)).map Prod.snd

/-- `sdata = {}; sdata['numbers'] = snumbers` (lines 23-24). -/
def sdata : List (String × List Nat) := dictSet [] "numbers" snumbers

/-- `ldata = {}; ldata['numbers'] = lnumbers` (lines 31-32). -/
def ldata : List (String × List Nat) := dictSet [] "numbers" lnumbers

/-- The character `{`. -/
def lbrace : Char := Char.ofNat 123

/-- The character `}`. -/
def rbrace : Char := Char.ofNat 125

/-- The newline character. -/
def newline : Char := Char.ofNat 10

/-- Decimal digit character for `d < 10`. -/
def digitChar (d : Nat) : Char := Char.ofNat (48 + d)

/-- Fuel-indexed digit expansion; with fuel at least `n` it produces the
decimal digits of `n`, most significant first. -/
def natReprAux : Nat → Nat → List Char
  | 0, _ => []
  | fuel + 1, n =>
    if n < 10 then [digitChar n]
    else natReprAux fuel (n / 10) ++ [digitChar (n % 10)]

/-- Decimal representation of a non-negative integer, as Python's
`repr`/`json` render it: most significant digit first, no sign, no
padding. -/
def natRepr (n : Nat) : List Char := natReprAux (n + 1) n

/-- Join chunks with Python's default item separator `", "`. -/
def joinCommaSpace : List (List Char) → List Char
  | [] => []
  | x :: xs =>
    match xs with
    | [] => x
    | _ :: _ => x ++ (',' :: ' ' :: joinCommaSpace xs)

/-- `json.dump` of a list of non-negative integers. -/
def dumpList (xs : List Nat) : List Char :=
  '[' :: joinCommaSpace (xs.map natRepr) ++ [']']

/-- One `"key": value` entry as `json.dump` renders it (the keys the
script uses contain no characters that JSON escapes). -/
def dumpEntry (kv : String × List Nat) : List Char :=
  '"' :: kv.1.data ++ ('"' :: ':' :: ' ' :: dumpList kv.2)

/-- `json.dump` of a dict from strings to integer lists, with Python's
default separators; no trailing newline is emitted. -/
def dumpDoc (d : List (String × List Nat)) : List Char :=
  lbrace :: joinCommaSpace (d.map dumpEntry) ++ [rbrace]

/-- The bytes `json.dump(sdata, outfile)` writes (line 26). -/
def smallContent : String := String.mk (dumpDoc sdata)

/-- The bytes `json.dump(ldata, outfile)` writes (line 34). -/
def largeContent : String := String.mk (dumpDoc ldata)

/- ## The run: file operations against a filesystem map -/

/-- Filesystem failure classes for the two fallible operations. -/
inductive FsError
  | permissionDenied
  | diskFull
  | invalidPath
  deriving DecidableEq, Repr

/-- Observable file-operation events of a run. -/
inductive Event
  | opened (path : String)
  | wrote (path : String) (content : String)
  | closed (path : String)
  deriving DecidableEq, Repr

/-- The path an event touches. -/
def Event.path : Event → String
  | .opened p => p
  | .wrote p _ => p
  | .closed p => p

/-- Filesystem contents plus the trace of events so far. -/
structure RunState where
  fs : String → Option String
  trace : List Event

/-- Point update of the filesystem map. -/
def setFile (fs : String → Option String) (path content : String) :
    String → Option String :=
  fun p => if p = path then some content else fs p

/-- One `with open(path, 'w') as outfile: json.dump(data, outfile)`
block: opening truncates/creates the file, a successful write replaces
its content, and the file is closed on exit from the block even when
the write raises.  `oo`/`wo` are the failure oracles for open and
write. -/
def doFile (oo wo : String → Option FsError) (path content : String)
    (s : RunState) : Except (FsError × RunState) RunState :=
  match oo path with
  | some e => .error (e, s)
  | none =>
    let s1 : RunState :=
      ⟨setFile s.fs path "", s.trace ++ [Event.opened path]⟩
    match wo path with
    | some e => .error (e, ⟨s1.fs, s1.trace ++ [Event.closed path]⟩)
    | none =>
      let s2 : RunState :=
        ⟨setFile s1.fs path content, s1.trace ++ [Event.wrote path content]⟩
      .ok ⟨s2.fs, s2.trace ++ [Event.closed path]⟩

/-- The whole script: write `small_file.json`, then `large_file.json`.
Returns the uncaught error (if any) and the final state. -/
def runScript (oo wo : String → Option FsError)
    (fs0 : String → Option String) : Option FsError × RunState :=
  match doFile oo wo "small_file.json" smallContent ⟨fs0, []⟩ with
  | .error (e, s) => (some e, s)
  | .ok s =>
    match doFile oo wo "large_file.json" largeContent s with
    | .error (e, s') => (some e, s')
    | .ok s' => (none, s')

/-- Process exit status: zero on success, non-zero when a filesystem
error propagated to the process boundary. -/
def exitCode (oo wo : String → Option FsError)
    (fs0 : String → Option String) : Nat :=
  match (runScript oo wo fs0).1 with
  | none => 0
  | some _ => 1

/- ## Helper lemmas -/

/-- The append loop builds exactly `[0, 1, ..., count-1]`. -/
theorem appendRange_eq_range (count : Nat) :
    appendRange count = List.range count := by
  induction count with
  | zero => rfl
  | succ n ih =>
    unfold appendRange at *
    rw [List.range_succ, List.foldl_append, ih]
    rfl

theorem snumbers_eq_range : snumbers = List.range 500 :=
  appendRange_eq_range 500

theorem lnumbers_eq_range : lnumbers = List.range 100000 :=
  appendRange_eq_range 100000

theorem dictGet_sdata : dictGet sdata "numbers" = some snumbers := by
  simp [dictGet, sdata, dictSet]

theorem dictGet_ldata : dictGet ldata "numbers" = some lnumbers := by
  simp [dictGet, ldata, dictSet]

theorem getElem?_appendRange {count i : Nat} (h : i < count) :
    (appendRange count)[i]? = some i := by
  rw [appendRange_eq_range,
    List.getElem?_eq_getElem (by simpa using h), List.getElem_range]

end MakeJson

namespace MakeJson

/- ## Claim theorems -/

/-- C1: the document written to `small_file.json` has a field `numbers`
whose value is a sequence of length 500 with `numbers[i] == i` for every
`0 ≤ i < 500`. -/
theorem small_numbers_spec :
    dictGet sdata "numbers" = some snumbers ∧
    snumbers.length = 500 ∧
    ∀ i, i < 500 → snumbers[i]? = some i := by
  refine ⟨dictGet_sdata, ?_, ?_⟩
  · rw [snumbers_eq_range, List.length_range]
  · intro i hi
    exact getElem?_appendRange hi

/-- Witness for C1 at the concrete index 3. -/
theorem small_numbers_spec_witness : snumbers[3]? = some 3 :=
  small_numbers_spec.2.2 3 (by decide)

/-- C2: the document written to `large_file.json` has a field `numbers`
whose value is a sequence of length 100000 with `numbers[i] == i` for
every `0 ≤ i < 100000`; in particular its last element is 99999. -/
theorem large_numbers_spec :
    dictGet ldata "numbers" = some lnumbers ∧
    lnumbers.length = 100000 ∧
    (∀ i, i < 100000 → lnumbers[i]? = some i) ∧
    lnumbers.getLast? = some 99999 := by
  refine ⟨dictGet_ldata, ?_, ?_, ?_⟩
  · rw [lnumbers_eq_range, List.length_range]
  · intro i hi
    exact getElem?_appendRange hi
  · rw [lnumbers_eq_range,
      show (100000 : Nat) = 99999 + 1 from rfl, List.range_succ,
      List.getLast?_concat]

/-- Witness for C2 at the concrete index 5. -/
theorem large_numbers_spec_witness : lnumbers[5]? = some 5 :=
  large_numbers_spec.2.2.1 5 (by decide)

/-- C3: each fixture document is a mapping with exactly one field, named
`numbers`, whose value is the strictly ascending sequence `0..count-1`
for the requested count. -/
theorem fixture_docs_shape :
    sdata.map Prod.fst = ["numbers"] ∧
    dictGet sdata "numbers" = some (List.range 500) ∧
    List.Sorted (· < ·) snumbers ∧
    ldata.map Prod.fst = ["numbers"] ∧
    dictGet ldata "numbers" = some (List.range 100000) ∧
    List.Sorted (· < ·) lnumbers := by
  refine ⟨rfl, ?_, ?_, rfl, ?_, ?_⟩
  · rw [dictGet_sdata, snumbers_eq_range]
  · rw [snumbers_eq_range]
    exact List.pairwise_lt_range 500
  · rw [dictGet_ldata, lnumbers_eq_range]
  · rw [lnumbers_eq_range]
    exact List.pairwise_lt_range 100000

/-- C9: the small sequence is a prefix of the large one: for every
`0 ≤ i < 500` the `i`-th entry of `snumbers` equals the `i`-th entry of
`lnumbers`. -/
theorem small_agrees_with_large :
    ∀ i, i < 500 → snumbers[i]? = lnumbers[i]? := by
  intro i hi
  have h1 : snumbers[i]? = some i := getElem?_appendRange hi
  have h2 : lnumbers[i]? = some i :=
    getElem?_appendRange (by omega : i < 100000)
  rw [h1, h2]

/-- Witness for C9 at the concrete index 7. -/
theorem small_agrees_with_large_witness : snumbers[7]? = lnumbers[7]? :=
  small_agrees_with_large 7 (by decide)

end MakeJson

namespace MakeJson

/- ## Serialization lemmas -/

theorem digitChar_ne_newline {d : Nat} (h : d < 10) : digitChar d ≠ newline := by
  interval_cases d <;> decide

theorem newline_notMem_natReprAux (fuel : Nat) :
    ∀ n, newline ∉ natReprAux fuel n := by
  induction fuel with
  | zero => intro n h; simp [natReprAux] at h
  | succ f ih =>
    intro n h
    rw [natReprAux] at h
    by_cases hn : n < 10
    · rw [if_pos hn] at h
      exact digitChar_ne_newline hn (List.mem_singleton.mp h).symm
    · rw [if_neg hn] at h
      rcases List.mem_append.mp h with h' | h'
      · exact ih _ h'
      · exact digitChar_ne_newline (Nat.mod_lt _ (by omega))
          (List.mem_singleton.mp h').symm

theorem newline_notMem_natRepr (n : Nat) : newline ∉ natRepr n :=
  newline_notMem_natReprAux (n + 1) n

theorem mem_joinCommaSpace {c : Char} :
    ∀ {xss : List (List Char)}, c ∈ joinCommaSpace xss →
      c = ',' ∨ c = ' ' ∨ ∃ xs ∈ xss, c ∈ xs := by
  intro xss
  induction xss with
  | nil => intro h; simp [joinCommaSpace] at h
  | cons x xs ih =>
    cases xs with
    | nil =>
      intro h
      exact Or.inr (Or.inr ⟨x, by simp, h⟩)
    | cons y ys =>
      intro h
      rw [joinCommaSpace] at h
      rcases List.mem_append.mp h with h' | h'
      · exact Or.inr (Or.inr ⟨x, by simp, h'⟩)
      · rcases List.mem_cons.mp h' with hc | h'
        · exact Or.inl hc
        · rcases List.mem_cons.mp h' with hc | h'
          · exact Or.inr (Or.inl hc)
          · rcases ih h' with hc | hc | ⟨zs, hzs, hcz⟩
            · exact Or.inl hc
            · exact Or.inr (Or.inl hc)
            · exact Or.inr (Or.inr ⟨zs, List.mem_cons_of_mem x hzs, hcz⟩)

theorem newline_notMem_dumpList (xs : List Nat) : newline ∉ dumpList xs := by
  intro h
  rw [dumpList] at h
  rcases List.mem_cons.mp h with hc | h
  · exact absurd hc (by decide)
  · rcases List.mem_append.mp h with h | h
    · rcases mem_joinCommaSpace h with hc | hc | ⟨ys, hys, hcy⟩
      · exact absurd hc (by decide)
      · exact absurd hc (by decide)
      · rcases List.mem_map.mp hys with ⟨m, _, rfl⟩
        exact newline_notMem_natRepr m hcy
    · exact absurd (List.mem_singleton.mp h) (by decide)

theorem newline_notMem_dumpDoc_single (k : String) (v : List Nat)
    (hk : newline ∉ k.data) : newline ∉ dumpDoc [(k, v)] := by
  intro h
  rw [dumpDoc] at h
  rcases List.mem_cons.mp h with hc | h
  · exact absurd hc (by decide)
  · rcases List.mem_append.mp h with h | h
    · rw [show ([(k, v)].map dumpEntry) = [dumpEntry (k, v)] from rfl] at h
      rw [show joinCommaSpace [dumpEntry (k, v)] = dumpEntry (k, v) from rfl] at h
      rw [dumpEntry] at h
      rcases List.mem_cons.mp h with hc | h
      · exact absurd hc (by decide)
      · rcases List.mem_append.mp h with h | h
        · exact hk h
        · rcases List.mem_cons.mp h with hc | h
          · exact absurd hc (by decide)
          · rcases List.mem_cons.mp h with hc | h
            · exact absurd hc (by decide)
            · rcases List.mem_cons.mp h with hc | h
              · exact absurd hc (by decide)
              · exact newline_notMem_dumpList v h
    · exact absurd (List.mem_singleton.mp h) (by decide)

/-- The first nineteen characters every generated file starts with. -/
def leadChars : List Char :=
  [lbrace, '"', 'n', 'u', 'm', 'b', 'e', 'r', 's', '"', ':', ' ',
   '[', '0', ',', ' ', '1', ',', ' ']

theorem dumpDoc_numbers_head (t : List Nat) :
    ∃ r, dumpDoc [("numbers", 0 :: 1 :: 2 :: t)] = leadChars ++ r :=
  ⟨(joinCommaSpace (natRepr 2 :: t.map natRepr) ++ [']']) ++ [rbrace], rfl⟩

theorem snumbers_decomp : snumbers = 0 :: 1 :: 2 :: List.range' 3 497 := by
  rw [snumbers_eq_range, List.range_eq_range']
  rfl

theorem lnumbers_decomp : lnumbers = 0 :: 1 :: 2 :: List.range' 3 99997 := by
  rw [lnumbers_eq_range, List.range_eq_range']
  rfl

theorem sdata_eq : sdata = [("numbers", snumbers)] := by
  simp [sdata, dictSet]

theorem ldata_eq : ldata = [("numbers", lnumbers)] := by
  simp [ldata, dictSet]

/-- C10: each generated file's content is a single line: it contains no
newline character (in particular no trailing newline) and starts with
the compact one-line rendering, space after comma and colon, beginning
with the nineteen characters of `leadChars`. -/
theorem dump_single_line :
    newline ∉ smallContent.data ∧ newline ∉ largeContent.data ∧
    (∃ r, smallContent.data = leadChars ++ r) ∧
    (∃ r, largeContent.data = leadChars ++ r) := by
  have hsd : smallContent.data = dumpDoc sdata := rfl
  have hld : largeContent.data = dumpDoc ldata := rfl
  refine ⟨?_, ?_, ?_, ?_⟩
  · rw [hsd, sdata_eq]
    exact newline_notMem_dumpDoc_single _ _ (by decide)
  · rw [hld, ldata_eq]
    exact newline_notMem_dumpDoc_single _ _ (by decide)
  · rw [hsd, sdata_eq, snumbers_decomp]
    exact dumpDoc_numbers_head _
  · rw [hld, ldata_eq, lnumbers_decomp]
    exact dumpDoc_numbers_head _

/- ## Run-model lemmas and claims -/

/-- A successful run leaves both files holding the serialized fixture
documents, whatever the filesystem held before. -/
theorem runScript_success_fs (oo wo : String → Option FsError)
    (fs0 : String → Option String) (h : (runScript oo wo fs0).1 = none) :
    (runScript oo wo fs0).2.fs "small_file.json" = some smallContent ∧
    (runScript oo wo fs0).2.fs "large_file.json" = some largeContent := by
  cases hos : oo "small_file.json" <;>
  cases hws : wo "small_file.json" <;>
  cases hol : oo "large_file.json" <;>
  cases hwl : wo "large_file.json" <;>
  simp [runScript, doFile, hos, hws, hol, hwl, setFile] at h ⊢

/-- C5: writing truncates or creates each output file and replaces any
prior content entirely: after a successful run, each file's content is
exactly the full serialized fixture document, independently of the prior
filesystem state (last write wins). -/
theorem run_overwrites_prior_content (oo wo : String → Option FsError)
    (fs0 : String → Option String) (h : (runScript oo wo fs0).1 = none) :
    (runScript oo wo fs0).2.fs "small_file.json" = some smallContent ∧
    (runScript oo wo fs0).2.fs "large_file.json" = some largeContent :=
  runScript_success_fs oo wo fs0 h

/-- Witness for C5: a successful run over a filesystem whose every file
already holds the content `"old"`. -/
theorem run_overwrites_prior_content_witness :
    (runScript (fun _ => none) (fun _ => none)
        (fun _ => some "old")).2.fs "small_file.json" = some smallContent ∧
    (runScript (fun _ => none) (fun _ => none)
        (fun _ => some "old")).2.fs "large_file.json" = some largeContent :=
  run_overwrites_prior_content _ _ _ rfl

/-- C4: the generator is deterministic: any two successful runs leave
byte-identical contents in the two output files, whatever the failure
oracles or the prior filesystem states were, because the written bytes
depend on no input, timestamp, or randomness. -/
theorem generator_deterministic
    (oo₁ wo₁ : String → Option FsError) (fs₁ : String → Option String)
    (oo₂ wo₂ : String → Option FsError) (fs₂ : String → Option String)
    (h₁ : (runScript oo₁ wo₁ fs₁).1 = none)
    (h₂ : (runScript oo₂ wo₂ fs₂).1 = none) :
    (runScript oo₁ wo₁ fs₁).2.fs "small_file.json" =
      (runScript oo₂ wo₂ fs₂).2.fs "small_file.json" ∧
    (runScript oo₁ wo₁ fs₁).2.fs "large_file.json" =
      (runScript oo₂ wo₂ fs₂).2.fs "large_file.json" := by
  obtain ⟨hs₁, hl₁⟩ := runScript_success_fs _ _ _ h₁
  obtain ⟨hs₂, hl₂⟩ := runScript_success_fs _ _ _ h₂
  rw [hs₁, hs₂, hl₁, hl₂]
  exact ⟨rfl, rfl⟩

/-- Witness for C4: two successful runs over different prior
filesystems produce the same file contents. -/
theorem generator_deterministic_witness :
    (runScript (fun _ => none) (fun _ => none)
        (fun _ => none)).2.fs "small_file.json" =
      (runScript (fun _ => none) (fun _ => none)
        (fun _ => some "prior")).2.fs "small_file.json" ∧
    (runScript (fun _ => none) (fun _ => none)
        (fun _ => none)).2.fs "large_file.json" =
      (runScript (fun _ => none) (fun _ => none)
        (fun _ => some "prior")).2.fs "large_file.json" :=
  generator_deterministic _ _ _ _ _ _ rfl rfl

/-- C6: the two writes are strictly sequential and ordered: in every
run, either no event touches `large_file.json` at all, or the run's
first three events are opening, fully writing and closing
`small_file.json` and every later event touches only `large_file.json`. -/
theorem small_completed_before_large (oo wo : String → Option FsError)
    (fs0 : String → Option String) :
    (∀ ev ∈ (runScript oo wo fs0).2.trace,
       Event.path ev ≠ "large_file.json") ∨
    ((runScript oo wo fs0).2.trace.take 3 =
       [Event.opened "small_file.json",
        Event.wrote "small_file.json" smallContent,
        Event.closed "small_file.json"] ∧
     ∀ ev ∈ (runScript oo wo fs0).2.trace.drop 3,
       Event.path ev = "large_file.json") := by
  cases hos : oo "small_file.json" with
  | some e =>
    left
    simp [runScript, doFile, hos]
  | none =>
    cases hws : wo "small_file.json" with
    | some e =>
      left
      intro ev hev
      simp [runScript, doFile, hos, hws] at hev
      rcases hev with h | h <;> subst h <;> decide
    | none =>
      right
      cases hol : oo "large_file.json" with
      | some e =>
        refine ⟨by simp [runScript, doFile, hos, hws, hol], ?_⟩
        intro ev hev
        simp [runScript, doFile, hos, hws, hol] at hev
      | none =>
        cases hwl : wo "large_file.json" with
        | some e =>
          refine ⟨by simp [runScript, doFile, hos, hws, hol, hwl], ?_⟩
          intro ev hev
          simp [runScript, doFile, hos, hws, hol, hwl] at hev
          rcases hev with h | h <;> subst h <;> rfl
        | none =>
          refine ⟨by simp [runScript, doFile, hos, hws, hol, hwl], ?_⟩
          intro ev hev
          simp [runScript, doFile, hos, hws, hol, hwl] at hev
          rcases hev with h | h | h <;> subst h <;> rfl

/-- C7: the run exits with status zero if and only if no filesystem
failure occurs on either file operation, and a failure on the first
file is not caught but propagates as the run's uncaught error. -/
theorem exit_zero_iff_no_failure (oo wo : String → Option FsError)
    (fs0 : String → Option String) :
    (exitCode oo wo fs0 = 0 ↔
       oo "small_file.json" = none ∧ wo "small_file.json" = none ∧
       oo "large_file.json" = none ∧ wo "large_file.json" = none) ∧
    ∀ e, oo "small_file.json" = some e →
      (runScript oo wo fs0).1 = some e := by
  constructor
  · cases hos : oo "small_file.json" <;>
    cases hws : wo "small_file.json" <;>
    cases hol : oo "large_file.json" <;>
    cases hwl : wo "large_file.json" <;>
    simp [exitCode, runScript, doFile, hos, hws, hol, hwl]
  · intro e he
    simp [runScript, doFile, he]

/-- Witness for C7: an open failure on the small file propagates
uncaught. -/
theorem exit_zero_iff_no_failure_witness :
    (runScript (fun _ => some FsError.diskFull) (fun _ => none)
      (fun _ => none)).1 = some FsError.diskFull :=
  (exit_zero_iff_no_failure (fun _ => some FsError.diskFull)
    (fun _ => none) (fun _ => none)).2 FsError.diskFull rfl

/-- C8: if opening or writing `small_file.json` fails, the run aborts
before any operation on `large_file.json`: that file is neither created
nor modified and no event of the run touches it. -/
theorem small_failure_protects_large (oo wo : String → Option FsError)
    (fs0 : String → Option String)
    (h : ¬(oo "small_file.json" = none ∧ wo "small_file.json" = none)) :
    (runScript oo wo fs0).2.fs "large_file.json" = fs0 "large_file.json" ∧
    ∀ ev ∈ (runScript oo wo fs0).2.trace,
      Event.path ev ≠ "large_file.json" := by
  cases hos : oo "small_file.json" with
  | some e =>
    refine ⟨by simp [runScript, doFile, hos], ?_⟩
    intro ev hev
    simp [runScript, doFile, hos] at hev
  | none =>
    cases hws : wo "small_file.json" with
    | none => exact absurd ⟨hos, hws⟩ h
    | some e =>
      refine ⟨by simp [runScript, doFile, hos, hws, setFile], ?_⟩
      intro ev hev
      simp [runScript, doFile, hos, hws] at hev
      rcases hev with h' | h' <;> subst h' <;> decide

/-- Witness for C8: when opening the small file is denied, the large
file keeps its prior (absent) content and no event touches it. -/
theorem small_failure_protects_large_witness :
    (runScript (fun _ => some FsError.permissionDenied) (fun _ => none)
      (fun _ => none)).2.fs "large_file.json" = none ∧
    ∀ ev ∈ (runScript (fun _ => some FsError.permissionDenied)
        (fun _ => none) (fun _ => none)).2.trace,
      Event.path ev ≠ "large_file.json" :=
  small_failure_protects_large _ _ _ (by simp)

end MakeJson
